import Mathlib

/-!
Verification of the MassCertificateProvider repository (`app.py`,
`db_to_excel.py`) against its natural-language specification.

The development is a shallow embedding of `app.py`:

* Python string primitives (`str.strip`, `str.lower`, substring tests,
  `"%03d"` formatting) are re-implemented over `List Char` so that every
  definition is executable and kernel-reducible.
* The column auto-detection (`student_col` / `school_col`, app.py lines
  166-175), the submit handler and session state (lines 29-134), and the
  certificate generation loop (lines 186-256) are translated into pure
  functions and a step-indexed fold over the participant rows.
* External collaborators are modelled at their interfaces: a pandas cell
  is `Option String` (`none` = NaN/missing), the Supabase insert outcome
  is an `InsertResult`, the PDF libraries are modelled by the page data
  they are handed (template geometry, text draws with their coordinates,
  fonts, sizes and colors), and the zip archive is the list of
  (entry name, serialized document) pairs in insertion order.
* Exceptions inside the per-row `try` block are modelled by an oracle
  `err : Nat -> Option (Bool × String)`: `none` means the row renders
  without an exception, `some (afterLoad, msg)` means an exception with
  text `msg` is raised during the PDF processing of that row, with
  `afterLoad` recording whether the template read (line 210) had already
  completed.  All realistic exception points (lines 210-251) lie after
  the `student` variable is assigned (line 201).
-/

namespace CertApp

/-! ## Python string primitives -/

/-- Whitespace characters stripped by Python `str.strip()` (the ASCII
ones; exotic unicode space code points are outside the model). -/
def pyIsSpace (c : Char) : Bool :=
  c == ' ' || c == '\t' || c == '\n' || c == '\r' || c == '\x0b' || c == '\x0c'

/-- Python `str.strip()`: remove leading and trailing whitespace. -/
def pyStrip (s : String) : String :=
  ⟨((s.data.dropWhile pyIsSpace).reverse.dropWhile pyIsSpace).reverse⟩

/-- ASCII lower-casing of one character, as Python `str.lower()` does on
ASCII input (headers in the model are ASCII). -/
def lowerChar (c : Char) : Char :=
  if 65 ≤ c.toNat ∧ c.toNat ≤ 90 then Char.ofNat (c.toNat + 32) else c

/-- Python `s.lower()`, as a character list. -/
def pyLower (s : String) : List Char := s.data.map lowerChar

/-- Python `pat in s` on character lists: `pat` occurs contiguously. -/
def containsSub (pat : List Char) : List Char → Bool
  | [] => pat.isPrefixOf []
  | c :: rest => pat.isPrefixOf (c :: rest) || containsSub pat rest

/-- Decimal digit lists via explicit fuel, so that the kernel can
evaluate them (`dec10 fuel n` is the big-endian base-10 digit list of
`n` whenever `n ≤ fuel`). -/
def dec10 : Nat → Nat → List Nat
  | 0, _ => []
  | fuel+1, n => if n = 0 then [] else dec10 fuel (n / 10) ++ [n % 10]

/-- Big-endian decimal digits of `n` (empty for 0). -/
def decDigits (n : Nat) : List Nat := dec10 n n

/-- Character for a decimal digit value. -/
def digitChar (d : Nat) : Char := Char.ofNat (48 + d)

/-- Python `f"{n:03d}"`: decimal representation left-padded with zeros
to width 3, as a character list. -/
def pad3Chars (n : Nat) : List Char :=
  List.replicate (3 - (decDigits n).length) '0' ++ (decDigits n).map digitChar

/-- Python `f"{n}"` for a natural number. -/
def pyNatRepr (n : Nat) : String :=
  if n = 0 then "0" else ⟨(decDigits n).map digitChar⟩

/-- Decimal value recovered from a character list (inverse of
`pad3Chars`, used to prove filename uniqueness). -/
def unpadChars (l : List Char) : Nat :=
  l.foldl (fun a c => a * 10 + (c.toNat - 48)) 0

/-! ## Column auto-detection (app.py lines 166-175) -/

/-- Header predicate for the name column: the lower-cased header
contains `"student"` or `"name"` (line 168). -/
def isStudentHeader (c : String) : Bool :=
  containsSub "student".data (pyLower c) || containsSub "name".data (pyLower c)

/-- Header predicate for the affiliation column: the lower-cased header
contains `"school"` or `"institution"` (line 173). -/
def isSchoolHeader (c : String) : Bool :=
  containsSub "school".data (pyLower c) || containsSub "institution".data (pyLower c)

/-- Lines 167-170: first header matching `isStudentHeader`, defaulting
to the first column. -/
def student_col (headers : List String) : Option String :=
  match headers.find? isStudentHeader with
  | some c => some c
  | none => headers.head?

/-- Lines 172-175: first header matching `isSchoolHeader`, defaulting to
`none` for a single-column dataset and to the second column otherwise.
The already-selected name column is *not* excluded from the search. -/
def school_col (headers : List String) : Option String :=
  match headers.find? isSchoolHeader with
  | some c => some c
  | none => if headers.length == 1 then none else headers[1]?

/-- First element satisfying `p`, by explicit first-match-wins recursion
(spec §4.1 "first match wins in column order"). -/
def firstMatching (p : String → Bool) : List String → Option String
  | [] => none
  | h :: t => if p h then some h else firstMatching p t

/-- Affiliation column selection written from the amended spec wording:
the first column (the name column not excluded) whose header contains
"school" or "institution"; if none matches, the second column when the
dataset has at least two columns, and no column otherwise. -/
def spec_school_col (headers : List String) : Option String :=
  match firstMatching isSchoolHeader headers with
  | some c => some c
  | none => if headers.length ≤ 1 then none else headers[1]?

/-! ## Session state and submit handler (app.py lines 29-134) -/

/-- The five text inputs of the Streamlit form (lines 74-78). -/
structure FormInputs where
  name : String
  school_name : String
  school_number : String
  contact_number : String
  ic_number : String
  deriving DecidableEq

/-- Lines 81-87: all five fields must be non-empty after stripping. -/
def inputsValid (i : FormInputs) : Bool :=
  decide (pyStrip i.name ≠ "") && decide (pyStrip i.school_name ≠ "") &&
  decide (pyStrip i.school_number ≠ "") && decide (pyStrip i.contact_number ≠ "") &&
  decide (pyStrip i.ic_number ≠ "")

/-- The record inserted into the `Generations` table and cached in
session state (lines 95-102). -/
structure UserData where
  name : String
  school_name : String
  school_number : String
  contact_number : String
  ic_number : String
  timestamp : String
  deriving DecidableEq

/-- Lines 95-102: stripped form fields plus the UTC ISO-8601 timestamp
produced by the clock collaborator at submission time. -/
def mkUserData (i : FormInputs) (now : String) : UserData :=
  ⟨pyStrip i.name, pyStrip i.school_name, pyStrip i.school_number,
   pyStrip i.contact_number, pyStrip i.ic_number, now⟩

/-- Streamlit session state relevant to the flow (lines 31-34). -/
structure Session where
  details_submitted : Bool
  user_data : Option UserData
  deriving DecidableEq

/-- Lines 31-34: `details_submitted = False`, `user_data = {}`. -/
def initSession : Session := ⟨false, none⟩

/-- Outcome of `supabase.table("Generations").insert(...).execute()` as
observed by lines 107-124: non-empty `response.data`, a truthy
`response.error`, an empty response, or a raised exception. -/
inductive InsertResult where
  | ok
  | errorResp (msg : String)
  | emptyResp
  | exn (msg : String)
  deriving DecidableEq

/-- Lines 91-129: the submit handler.  Returns the new session state and
the list of user-facing messages. -/
def submitHandler (s : Session) (i : FormInputs) (now : String)
    (r : InsertResult) : Session × List String :=
  if inputsValid i then
    match r with
    | InsertResult.ok =>
        (⟨true, some (mkUserData i now)⟩,
         ["User details submitted and stored successfully! You can now upload your Excel/CSV file and generate certificates."])
    | InsertResult.errorResp m =>
        ({ s with details_submitted := false },
         ["Failed to store data in database. Supabase Error: " ++ m])
    | InsertResult.emptyResp =>
        ({ s with details_submitted := false },
         ["Failed to store data in database. Response data was empty."])
    | InsertResult.exn m =>
        ({ s with details_submitted := false },
         ["Database connection or insertion failed: " ++ m])
  else
    ({ s with details_submitted := false },
     ["Please fill in ALL required user details before submitting."])

/-- Line 134: the generation section renders only when
`st.session_state.details_submitted` is set. -/
def canGenerate (s : Session) : Bool := s.details_submitted

/-- Session states reachable from the initial state by submit events
(each Streamlit rerun either leaves the state alone or runs the submit
handler with some inputs, clock value and insert outcome). -/
inductive Reachable : Session → Prop where
  | init : Reachable initSession
  | step (s : Session) (i : FormInputs) (now : String) (r : InsertResult) :
      Reachable s → Reachable (submitHandler s i now r).1

/-! ## Certificate styles (app.py lines 49-65) -/

/-- Hexadecimal digit value of a character (`int(c, 16)`). -/
def hexVal (c : Char) : Option Nat :=
  if 48 ≤ c.toNat ∧ c.toNat ≤ 57 then some (c.toNat - 48)
  else if 97 ≤ c.toNat ∧ c.toNat ≤ 102 then some (c.toNat - 87)
  else if 65 ≤ c.toNat ∧ c.toNat ≤ 70 then some (c.toNat - 55)
  else none

/-- Value of a one- or two-character hex slice (`int(slice, 16)`; the
empty slice raises, modelled as `none`). -/
def hexPair : List Char → Option Nat
  | [a] => hexVal a
  | [a, b] => do pure (16 * (← hexVal a) + (← hexVal b))
  | _ => none

/-- Lines 49-52 (`hex_to_rgb`): strip leading `#`, then parse the three
byte slices `[0:2]`, `[2:4]`, `[4:6]`.  The source divides each byte by
255 for ReportLab's 0-1 channel range; the model records the byte
numerators, an injective rescaling. -/
def hex_to_rgb (s : String) : Option (Nat × Nat × Nat) := do
  let t := s.data.dropWhile (· == '#')
  pure (← hexPair (t.take 2), ← hexPair ((t.drop 2).take 2),
        ← hexPair ((t.drop 4).take 2))

def student_font_size : Nat := 18
def student_x : Nat := 427
def student_y : Nat := 200
def student_font : String := "Helvetica-Bold"
def student_color : String := "#000000"

def school_font_size : Nat := 18
def school_x : Nat := 306
def school_y : Nat := 550
def school_font : String := "Helvetica-Bold"
def school_color : String := "#000000"

/-! ## Row data (pandas interface) -/

/-- The two cells of one participant row as accessed by the loop:
`row[student_col]` and `row[school_col]`.  `none` models a missing value
(`pd.isna` true); `some s` models a present cell whose `str()` value is
`s`.  When no affiliation column was selected the `school` cell is never
read. -/
structure RowV where
  name : Option String
  school : Option String
  deriving DecidableEq

/-- Stripped string value of a cell; a missing cell behaves like the
empty string for the validity test of lines 198-200. -/
def trimCell : Option String → String
  | none => ""
  | some s => pyStrip s

/-- Lines 198-200: a row is processed only when its name cell is present
and non-empty after stripping. -/
def validName (c : Option String) : Bool := decide (trimCell c ≠ "")

/-- Lines 203-207: affiliation string of a row: empty when no
affiliation column exists, the cell is missing, or it strips to empty;
otherwise the stripped cell value. -/
def schoolOf (hasSchoolCol : Bool) (r : RowV) : String :=
  if hasSchoolCol then
    match r.school with
    | none => ""
    | some s => if pyStrip s = "" then "" else pyStrip s
  else ""

/-! ## PDF rendering model (app.py lines 209-245) -/

/-- The fixed certificate template: page geometry in points (read from
the mediabox, lines 212-214) plus its visual content, abstracted as an
opaque tag. -/
structure Template where
  width : ℚ
  height : ℚ
  content : String
  deriving DecidableEq

/-- One `drawCentredString` call on the overlay canvas, together with
the fill color and font set before it (lines 221-229).  The color is
the byte triple handed to `setFillColorRGB` via `hex_to_rgb`. -/
structure TextDraw where
  text : String
  x : Nat
  y : Nat
  font : String
  fontSize : Nat
  color : Option (Nat × Nat × Nat)
  deriving DecidableEq

/-- Lines 221-223: the student name draw. -/
def studentDraw (student : String) : TextDraw :=
  ⟨student, student_x, student_y, student_font, student_font_size,
   hex_to_rgb student_color⟩

/-- Lines 227-229: the school name draw. -/
def schoolDraw (school : String) : TextDraw :=
  ⟨school, school_x, school_y, school_font, school_font_size,
   hex_to_rgb school_color⟩

/-- Lines 220-229: the overlay draws, in canvas order.  The name is
always drawn; the school line only when the string is non-empty
(`if school:`). -/
def mkOverlay (student school : String) : List TextDraw :=
  studentDraw student :: (if school = "" then [] else [schoolDraw school])

/-- One layer of a merged page: the composited template content or the
composited overlay. -/
inductive Layer where
  | base (content : String)
  | overlay (draws : List TextDraw)
  deriving DecidableEq

/-- Lines 236-238: blank page of the template dimensions, template
merged first, overlay merged second. -/
structure MergedPage where
  width : ℚ
  height : ℚ
  layers : List Layer
  deriving DecidableEq

/-- Lines 209-238: full per-row render from the template and the two
strings. -/
def renderRow (tmpl : Template) (student school : String) : MergedPage :=
  ⟨tmpl.width, tmpl.height,
   [Layer.base tmpl.content, Layer.overlay (mkOverlay student school)]⟩

/-- Lines 241-244: serialized single-page document: the visible page
plus container metadata (producer fields, timestamps) contributed by the
writer environment, not by the row. -/
structure PdfFile where
  page : MergedPage
  containerMeta : String
  deriving DecidableEq

/-- Serialization of a merged page under a given writer environment. -/
def serializePdf (p : MergedPage) (meta : String) : PdfFile := ⟨p, meta⟩

/-! ## Archive entry names (app.py lines 247-249) -/

/-- The characters replaced by `re.sub` in line 248. -/
def specials : List Char := ['<', '>', ':', '"', '/', '\\', '|', '?', '*']

/-- Line 248, first step: `student.replace(" ", "_")` (spaces only). -/
def replaceSpace (c : Char) : Char := if c = ' ' then '_' else c

/-- Line 248, second step: one character under the `re.sub` class. -/
def replaceSpecial (c : Char) : Char := if c ∈ specials then '_' else c

/-- Line 248: `safe_name`, both replacements in source order. -/
def safe_name (student : String) : List Char :=
  (student.data.map replaceSpace).map replaceSpecial

/-- Line 249: `f"{idx+1:03d}_{safe_name}_certificate.pdf"`. -/
def entryName (idx : Nat) (student : String) : String :=
  ⟨pad3Chars (idx + 1) ++ '_' :: (safe_name student ++ "_certificate.pdf".data)⟩

/-- Sanitization written from the amended spec wording: every space and
every character of the special set becomes an underscore, in one pass. -/
def specSanitize (student : String) : List Char :=
  student.data.map (fun c => if c = ' ' ∨ c ∈ specials then '_' else c)

/-- Entry name written from the amended spec wording: zero-padded
3-digit 1-based index, underscore, sanitized name, fixed suffix, fixed
extension. -/
def specEntryName (idx : Nat) (student : String) : String :=
  (⟨pad3Chars (idx + 1)⟩ : String) ++ "_" ++ ⟨specSanitize student⟩ ++
    "_certificate" ++ ".pdf"

/-! ## The generation loop (app.py lines 186-256) -/

/-- Line 256: the warning text for a caught per-row exception
(`student or 'Unknown'` falls back for a falsy, i.e. empty, name). -/
def errMsg (idx : Nat) (student : String) (e : String) : String :=
  "Error creating certificate for " ++
    (if student = "" then "Unknown" else student) ++
    " (Row " ++ pyNatRepr (idx + 1) ++ "): " ++ e

/-- Mutable state of the loop: the two counters (line 188), the zip
entries in insertion order (line 251), the warnings shown (line 256),
and the number of completed template reads (line 210). -/
structure BatchState where
  success : Nat
  fail : Nat
  entries : List (String × PdfFile)
  messages : List String
  loads : Nat
  deriving DecidableEq

/-- State before the loop: counters zero, empty archive. -/
def initBatch : BatchState := ⟨0, 0, [], [], 0⟩

/-- Lines 193-256: one iteration of the loop at dataframe index `idx`.
`e` is the exception oracle value for this row. -/
def processRow (tmpl : Template) (meta : String) (hasSchoolCol : Bool)
    (e : Option (Bool × String)) (idx : Nat) (r : RowV)
    (st : BatchState) : BatchState :=
  if validName r.name then
    let student := trimCell r.name
    let school := schoolOf hasSchoolCol r
    match e with
    | some (afterLoad, msg) =>
        { st with fail := st.fail + 1,
                  messages := st.messages ++ [errMsg idx student msg],
                  loads := st.loads + (if afterLoad then 1 else 0) }
    | none =>
        { st with success := st.success + 1,
                  entries := st.entries ++
                    [(entryName idx student,
                      serializePdf (renderRow tmpl student school) meta)],
                  loads := st.loads + 1 }
  else
    { st with fail := st.fail + 1 }

/-- The loop over the remaining rows, starting at dataframe index
`idx` (a fresh dataframe has a `RangeIndex`, so `iterrows` yields
positions 0, 1, ...). -/
def runAux (tmpl : Template) (meta : String) (hasSchoolCol : Bool)
    (err : Nat → Option (Bool × String)) :
    Nat → List RowV → BatchState → BatchState
  | _, [], st => st
  | idx, r :: rs, st =>
      runAux tmpl meta hasSchoolCol err (idx + 1) rs
        (processRow tmpl meta hasSchoolCol (err idx) idx r st)

/-- Lines 186-256: the whole generation run over a dataset. -/
def runBatch (tmpl : Template) (meta : String) (hasSchoolCol : Bool)
    (err : Nat → Option (Bool × String)) (rows : List RowV) : BatchState :=
  runAux tmpl meta hasSchoolCol err 0 rows initBatch

/-- Everything about a batch result except the container metadata of the
serialized documents: counts, entry names with their visible page
content, messages, template reads. -/
structure VisibleState where
  success : Nat
  fail : Nat
  entries : List (String × MergedPage)
  messages : List String
  loads : Nat
  deriving DecidableEq

/-- Projection of a batch state onto its metadata-independent part. -/
def visible (st : BatchState) : VisibleState :=
  ⟨st.success, st.fail, st.entries.map (fun p => (p.1, p.2.page)),
   st.messages, st.loads⟩

/-- Invariant carried through the loop for filename uniqueness: every
entry name so far is the entry name of some earlier index, and the names
are distinct. -/
def namesBounded (idx : Nat) (st : BatchState) : Prop :=
  (∀ nm ∈ st.entries.map Prod.fst, ∃ k s, k < idx ∧ nm = entryName k s) ∧
    (st.entries.map Prod.fst).Nodup

/-- Concrete form inputs used by the witnesses. -/
def wInputs : FormInputs :=
  ⟨"Alice", "Lincoln High", "LH01", "0123456789", "990101015678"⟩

/-- Concrete template used by the witnesses. -/
def wTemplate : Template := ⟨842, 595, "certificate_template"⟩

/-! ## Helper lemmas: strings -/

theorem stringExt {a b : String} (h : a.data = b.data) : a = b := by
  cases a
  cases b
  exact congrArg String.mk h

theorem dropWhile_self {α : Type} (p : α → Bool) (l : List α) :
    (l.dropWhile p).dropWhile p = l.dropWhile p := by
  induction l with
  | nil => simp
  | cons c cs ih =>
    by_cases h : p c
    · simpa [List.dropWhile_cons, h] using ih
    · simp [List.dropWhile_cons, h]

theorem dropWhile_head_false {α : Type} (p : α → Bool) (l : List α) (c : α)
    (t : List α) (h : l.dropWhile p = c :: t) : p c = false := by
  induction l with
  | nil => simp at h
  | cons a as ih =>
    by_cases ha : p a
    · exact ih (by simpa [List.dropWhile_cons, ha] using h)
    · rw [List.dropWhile_cons, if_neg (by simpa using ha)] at h
      cases h
      simpa using ha

theorem pyStrip_idem (s : String) : pyStrip (pyStrip s) = pyStrip s := by
  unfold pyStrip
  set p := pyIsSpace
  set l1 := s.data.dropWhile p with hl1
  set l2 := (l1.reverse.dropWhile p).reverse with hl2
  have hpre : l2 <+: l1 := by
    have hsuf : l1.reverse.dropWhile p <:+ l1.reverse := List.dropWhile_suffix p
    have := (@List.reverse_prefix Char (l1.reverse.dropWhile p) l1.reverse).2 hsuf
    simpa [hl2] using this
  have hstep1 : l2.dropWhile p = l2 := by
    cases h2 : l2 with
    | nil => simp
    | cons c t =>
      obtain ⟨u, hu⟩ := hpre
      rw [h2] at hu
      have hc : p c = false := dropWhile_head_false p s.data c (t ++ u) (by
        rw [← hl1, ← hu]
        simp)
      rw [List.dropWhile_cons, if_neg (by simp [hc])]
  have hstep2 : l2.reverse.dropWhile p = l2.reverse := by
    have : l2.reverse = l1.reverse.dropWhile p := by
      rw [hl2, List.reverse_reverse]
    rw [this]
    exact dropWhile_self p l1.reverse
  simp only [String.data]
  rw [hstep1, hstep2, List.reverse_reverse]

/-! ## Helper lemmas: decimal digits and padded filenames -/

theorem dec10_eq (fuel n : Nat) (h : n ≤ fuel) :
    dec10 fuel n = (Nat.digits 10 n).reverse := by
  induction fuel generalizing n with
  | zero =>
    interval_cases n
    simp [dec10]
  | succ fuel ih =>
    by_cases hn : n = 0
    · simp [dec10, hn]
    · rw [dec10, if_neg hn, Nat.digits_def' (by norm_num) (Nat.pos_of_ne_zero hn)]
      rw [List.reverse_cons, ih (n / 10) (by omega)]

theorem decDigits_eq (n : Nat) : decDigits n = (Nat.digits 10 n).reverse :=
  dec10_eq n n (Nat.le_refl n)

theorem decDigits_lt (n d : Nat) (h : d ∈ decDigits n) : d < 10 := by
  rw [decDigits_eq, List.mem_reverse] at h
  exact Nat.digits_lt_base (by norm_num) h

theorem unpad_zeros (k : Nat) (l : List Char) :
    unpadChars (List.replicate k '0' ++ l) = unpadChars l := by
  induction k with
  | zero => simp
  | succ k ih =>
    unfold unpadChars at ih ⊢
    rw [List.replicate_succ, List.cons_append, List.foldl_cons]
    have h0 : (0 * 10 + ('0'.toNat - 48)) = 0 := by decide
    rw [h0]
    exact ih

theorem foldl_congr_mem {α β : Type} (f g : β → α → β) (l : List α)
    (h : ∀ a ∈ l, ∀ b, f b a = g b a) (b : β) : l.foldl f b = l.foldl g b := by
  induction l generalizing b with
  | nil => rfl
  | cons a as ih =>
    rw [List.foldl_cons, List.foldl_cons, h a (by simp)]
    exact ih (fun a ha b => h a (by simp [ha]) b) _

theorem ofDigits_foldr (l : List Nat) :
    l.foldr (fun d acc => acc * 10 + d) 0 = Nat.ofDigits 10 l := by
  induction l with
  | nil => simp [Nat.ofDigits]
  | cons d ds ih =>
    simp [Nat.ofDigits_cons, ih]
    ring

theorem unpad_decDigits (n : Nat) :
    (decDigits n).foldl (fun a d => a * 10 + d) 0 = n := by
  rw [decDigits_eq, List.foldl_reverse]
  have h := ofDigits_foldr (Nat.digits 10 n)
  simpa [h] using Nat.ofDigits_digits 10 n

theorem unpad_pad3 (n : Nat) : unpadChars (pad3Chars n) = n := by
  unfold pad3Chars
  rw [unpad_zeros]
  unfold unpadChars
  rw [List.foldl_map]
  rw [foldl_congr_mem _ (fun a d => a * 10 + d) (decDigits n)
    (fun d hd b => by
      have hlt : d < 10 := decDigits_lt n d hd
      have : (digitChar d).toNat - 48 = d := by
        unfold digitChar
        interval_cases d <;> decide
      rw [this])]
  exact unpad_decDigits n

theorem pad3_inj (a b : Nat) (h : pad3Chars a = pad3Chars b) : a = b := by
  have := congrArg unpadChars h
  rwa [unpad_pad3, unpad_pad3] at this

theorem pad3_isDigit (n : Nat) (c : Char) (h : c ∈ pad3Chars n) :
    c.isDigit = true := by
  unfold pad3Chars at h
  rcases List.mem_append.1 h with h0 | hd
  · rw [List.eq_of_mem_replicate h0]
    decide
  · obtain ⟨d, hd2, hc⟩ := List.mem_map.1 hd
    have hlt : d < 10 := decDigits_lt n d hd2
    rw [← hc]
    unfold digitChar
    interval_cases d <;> decide

theorem takeWhile_append_all (p : Char → Bool) (l : List Char)
    (hl : ∀ c ∈ l, p c = true) (y : Char) (hy : p y = false) (r : List Char) :
    (l ++ y :: r).takeWhile p = l := by
  induction l with
  | nil => simp [List.takeWhile_cons, hy]
  | cons c cs ih =>
    rw [List.cons_append, List.takeWhile_cons, hl c (by simp)]
    simp [ih (fun c hc => hl c (by simp [hc]))]

theorem entryName_inj (i j : Nat) (s t : String)
    (h : entryName i s = entryName j t) : i = j := by
  have hl : pad3Chars (i + 1) ++ '_' :: (safe_name s ++ "_certificate.pdf".data)
      = pad3Chars (j + 1) ++ '_' :: (safe_name t ++ "_certificate.pdf".data) := by
    have := congrArg String.data h
    simpa [entryName] using this
  have hu : ('_' : Char).isDigit = false := by decide
  have h1 := congrArg (List.takeWhile Char.isDigit) hl
  rw [takeWhile_append_all Char.isDigit _ (pad3_isDigit (i + 1)) '_' hu,
      takeWhile_append_all Char.isDigit _ (pad3_isDigit (j + 1)) '_' hu] at h1
  have := pad3_inj (i + 1) (j + 1) h1
  omega

theorem safe_name_eq_spec (s : String) : safe_name s = specSanitize s := by
  unfold safe_name specSanitize
  rw [List.map_map]
  refine List.map_congr_left (fun c _ => ?_)
  by_cases hc : c = ' '
  · subst hc
    decide
  · by_cases hm : c ∈ specials
    · simp [Function.comp, replaceSpace, replaceSpecial, hc, hm]
    · simp [Function.comp, replaceSpace, replaceSpecial, hc, hm]

theorem entryName_eq_spec (idx : Nat) (s : String) :
    entryName idx s = specEntryName idx s := by
  apply stringExt
  have hconst : ("_certificate.pdf".data : List Char)
      = "_certificate".data ++ ".pdf".data := by decide
  have hund : ("_".data : List Char) = ['_'] := by decide
  show pad3Chars (idx + 1) ++ '_' :: (safe_name s ++ "_certificate.pdf".data)
      = (((((⟨pad3Chars (idx + 1)⟩ : String) ++ "_") ++ ⟨specSanitize s⟩) ++
          "_certificate") ++ ".pdf").data
  rw [safe_name_eq_spec, hconst]
  simp [String.data_append, List.append_assoc]

/-! ## Helper lemmas: column detection -/

theorem find?_eq_firstMatching (p : String → Bool) (l : List String) :
    l.find? p = firstMatching p l := by
  induction l with
  | nil => rfl
  | cons a as ih =>
    by_cases h : p a <;> simp [List.find?_cons, firstMatching, h, ih]

/-! ## Helper lemmas: the generation loop -/

theorem processRow_counts (tmpl : Template) (meta : String) (hs : Bool)
    (e : Option (Bool × String)) (idx : Nat) (r : RowV) (st : BatchState) :
    (processRow tmpl meta hs e idx r st).success +
      (processRow tmpl meta hs e idx r st).fail = st.success + st.fail + 1 := by
  unfold processRow
  by_cases hv : validName r.name
  · rcases e with _ | ⟨a, m⟩ <;> simp [hv] <;> omega
  · simp [hv]
    omega

theorem runAux_counts (tmpl : Template) (meta : String) (hs : Bool)
    (err : Nat → Option (Bool × String)) (rows : List RowV) :
    ∀ (idx : Nat) (st : BatchState),
      (runAux tmpl meta hs err idx rows st).success +
        (runAux tmpl meta hs err idx rows st).fail
        = st.success + st.fail + rows.length := by
  induction rows with
  | nil => intro idx st; simp [runAux]
  | cons r rs ih =>
    intro idx st
    rw [runAux, ih]
    have h := processRow_counts tmpl meta hs (err idx) idx r st
    simp only [List.length_cons]
    omega

theorem runAux_loads_noerr (tmpl : Template) (meta : String) (hs : Bool)
    (rows : List RowV) :
    ∀ (idx : Nat) (st : BatchState),
      (runAux tmpl meta hs (fun _ => none) idx rows st).loads
        = st.loads + (rows.filter (fun r => validName r.name)).length := by
  induction rows with
  | nil => intro idx st; simp [runAux]
  | cons r rs ih =>
    intro idx st
    rw [runAux, ih]
    by_cases hv : validName r.name
    · simp [processRow, hv, List.filter_cons]
      omega
    · simp [processRow, hv, List.filter_cons]

theorem namesBounded_mono (j k : Nat) (st : BatchState) (hjk : j ≤ k)
    (h : namesBounded j st) : namesBounded k st := by
  obtain ⟨hb, hn⟩ := h
  refine ⟨fun nm hm => ?_, hn⟩
  obtain ⟨i, s, hi, hs⟩ := hb nm hm
  exact ⟨i, s, by omega, hs⟩

theorem namesBounded_process (tmpl : Template) (meta : String) (hs : Bool)
    (e : Option (Bool × String)) (idx : Nat) (r : RowV) (st : BatchState)
    (h : namesBounded idx st) :
    namesBounded (idx + 1) (processRow tmpl meta hs e idx r st) := by
  obtain ⟨hb, hn⟩ := h
  unfold processRow
  by_cases hv : validName r.name = true
  · rw [if_pos hv]
    rcases e with _ | ⟨a, m⟩
    · constructor
      · intro nm hm
        simp only [List.map_append, List.mem_append] at hm
        rcases hm with hm | hm
        · obtain ⟨i, s, hi, hsx⟩ := hb nm hm
          exact ⟨i, s, by omega, hsx⟩
        · simp at hm
          exact ⟨idx, trimCell r.name, by omega, hm⟩
      · rw [List.map_append]
        simp only [List.map_cons, List.map_nil]
        rw [List.nodup_append]
        refine ⟨hn, List.nodup_singleton _, fun nm hm hm2 => ?_⟩
        simp at hm2
        obtain ⟨i, s, hi, hsx⟩ := hb nm hm
        rw [hm2] at hsx
        have := entryName_inj idx i (trimCell r.name) s hsx
        omega
    · exact ⟨fun nm hm => (fun ⟨i, s, hi, hsx⟩ => ⟨i, s, by omega, hsx⟩) (hb nm hm), hn⟩
  · rw [if_neg hv]
    exact ⟨fun nm hm => (fun ⟨i, s, hi, hsx⟩ => ⟨i, s, by omega, hsx⟩) (hb nm hm), hn⟩

theorem nodup_runAux (tmpl : Template) (meta : String) (hs : Bool)
    (err : Nat → Option (Bool × String)) (rows : List RowV) :
    ∀ (idx : Nat) (st : BatchState), namesBounded idx st →
      ((runAux tmpl meta hs err idx rows st).entries.map Prod.fst).Nodup := by
  induction rows with
  | nil => intro idx st h; exact h.2
  | cons r rs ih =>
    intro idx st h
    rw [runAux]
    exact ih (idx + 1) _ (namesBounded_process tmpl meta hs (err idx) idx r st h)

theorem visible_processRow (tmpl : Template) (m₁ m₂ : String) (hs : Bool)
    (e : Option (Bool × String)) (idx : Nat) (r : RowV) (st₁ st₂ : BatchState)
    (h : visible st₁ = visible st₂) :
    visible (processRow tmpl m₁ hs e idx r st₁)
      = visible (processRow tmpl m₂ hs e idx r st₂) := by
  simp only [visible, VisibleState.mk.injEq] at h
  obtain ⟨h1, h2, h3, h4, h5⟩ := h
  unfold processRow
  by_cases hv : validName r.name = true
  · rw [if_pos hv, if_pos hv]
    rcases e with _ | ⟨a, m⟩
    · simp [visible, VisibleState.mk.injEq, List.map_append, serializePdf,
        h1, h2, h3, h4, h5]
    · simp [visible, VisibleState.mk.injEq, h1, h2, h3, h4, h5]
  · rw [if_neg hv, if_neg hv]
    simp [visible, VisibleState.mk.injEq, h1, h2, h3, h4, h5]

theorem visible_runAux (tmpl : Template) (m₁ m₂ : String) (hs : Bool)
    (err : Nat → Option (Bool × String)) (rows : List RowV) :
    ∀ (idx : Nat) (st₁ st₂ : BatchState), visible st₁ = visible st₂ →
      visible (runAux tmpl m₁ hs err idx rows st₁)
        = visible (runAux tmpl m₂ hs err idx rows st₂) := by
  induction rows with
  | nil => intro idx st₁ st₂ h; exact h
  | cons r rs ih =>
    intro idx st₁ st₂ h
    rw [runAux, runAux]
    exact ih (idx + 1) _ _ (visible_processRow tmpl m₁ m₂ hs (err idx) idx r st₁ st₂ h)

/-! ## Helper lemmas: submit handler -/

theorem inputsValid_fields (i : FormInputs) (h : inputsValid i = true) :
    pyStrip i.name ≠ "" ∧ pyStrip i.school_name ≠ "" ∧
    pyStrip i.school_number ≠ "" ∧ pyStrip i.contact_number ≠ "" ∧
    pyStrip i.ic_number ≠ "" := by
  simp only [inputsValid, Bool.and_eq_true, decide_eq_true_eq] at h
  tauto

theorem submit_fail_flag (s : Session) (i : FormInputs) (now : String)
    (r : InsertResult) (h : inputsValid i = false ∨ r ≠ InsertResult.ok) :
    (submitHandler s i now r).1.details_submitted = false := by
  unfold submitHandler
  by_cases hv : inputsValid i = true
  · rw [if_pos hv]
    rcases h with h | h
    · rw [hv] at h
      cases h
    · cases r with
      | ok => exact absurd rfl h
      | errorResp m => rfl
      | emptyResp => rfl
      | exn m => rfl
  · rw [if_neg hv]

/-! ## Claim C2: affiliation column selection -/

/-- Claim C2, counterexample: for the two-column header list
`["School Name", "Grade"]` the code selects `"School Name"` both as the
name column and as the affiliation column, contradicting the claim that
the affiliation column excludes the name column and is never the same
column when the dataset has more than one column.  Also, a single-column
dataset whose header matches still gets an affiliation column. -/
theorem school_col_excludes_name_cex :
    student_col ["School Name", "Grade"] = some "School Name" ∧
    school_col ["School Name", "Grade"] = some "School Name" ∧
    school_col ["School"] = some "School" := by decide

/-- Claim C2, amended: the affiliation column is the first column (the
name column is *not* excluded) whose header case-insensitively contains
"school" or "institution"; if none matches, the second column is used
when at least two columns exist and none otherwise; the affiliation
column can coincide with the name column. -/
theorem school_col_spec_refined :
    (∀ headers : List String, school_col headers = spec_school_col headers) ∧
    (∃ headers : List String, 1 < headers.length ∧
      (student_col headers).isSome ∧ student_col headers = school_col headers) := by
  constructor
  · intro headers
    unfold school_col spec_school_col
    rw [find?_eq_firstMatching]
    cases hf : firstMatching isSchoolHeader headers with
    | some c => rfl
    | none =>
      rcases headers with _ | ⟨a, _ | ⟨b, t⟩⟩
      · rfl
      · rfl
      · have h1 : ¬((a :: b :: t).length == 1) = true := by
          simp only [List.length_cons, beq_iff_eq]
          omega
        have h2 : ¬(a :: b :: t).length ≤ 1 := by
          simp only [List.length_cons]
          omega
        rw [if_neg h1, if_neg h2]
  · exact ⟨["School Name", "Grade"], by decide, by decide, by decide⟩

/-! ## Claim C3: template loading -/

/-- Claim C3, counterexample: a two-row batch with two valid names and
no render errors performs two template reads, not one: the template page
is not loaded exactly once per batch run. -/
theorem template_loaded_per_row_cex :
    (runBatch wTemplate "m" true (fun _ => none)
      [⟨some "Alice", some "Lincoln High"⟩, ⟨some "Bob", none⟩]).loads = 2 ∧
    (runBatch wTemplate "m" true (fun _ => none)
      [⟨some "Alice", some "Lincoln High"⟩, ⟨some "Bob", none⟩]).loads ≠ 1 := by decide

/-- Claim C3, amended: the template is re-read from disk inside the
per-row loop — in an error-free run the number of completed template
reads equals the number of rows passing name validation, one fresh read
per rendered row, rather than a single read per batch.  (The loaded page
objects are read-only values; no iteration mutates a previously loaded
page.) -/
theorem template_loaded_per_row (tmpl : Template) (meta : String) (hs : Bool)
    (rows : List RowV) :
    (runBatch tmpl meta hs (fun _ => none) rows).loads
      = (rows.filter (fun r => validName r.name)).length := by
  unfold runBatch
  rw [runAux_loads_noerr]
  simp [initBatch]

/-! ## Claim C4: counters partition the rows -/

/-- Claim C4: for every dataset that loads, after the loop completes
over all rows, `success + fail` equals the number of rows attempted:
each row increments exactly one of the two counters exactly once. -/
theorem success_plus_fail_eq_total (tmpl : Template) (meta : String)
    (hs : Bool) (err : Nat → Option (Bool × String)) (rows : List RowV) :
    (runBatch tmpl meta hs err rows).success +
      (runBatch tmpl meta hs err rows).fail = rows.length := by
  unfold runBatch
  rw [runAux_counts]
  simp [initBatch]

/-! ## Claim C5: invalid-name rows are skipped -/

/-- Claim C5: a row whose name cell is missing, empty, or
whitespace-only after trimming adds no archive entry, increments the
failure counter by exactly one, and the loop continues with the
remaining rows unchanged. -/
theorem invalid_name_row_skipped (tmpl : Template) (meta : String) (hs : Bool)
    (err : Nat → Option (Bool × String)) (idx : Nat) (r : RowV)
    (rest : List RowV) (st : BatchState) (hv : validName r.name = false) :
    runAux tmpl meta hs err idx (r :: rest) st
      = runAux tmpl meta hs err (idx + 1) rest { st with fail := st.fail + 1 } ∧
    (processRow tmpl meta hs (err idx) idx r st).entries = st.entries ∧
    (processRow tmpl meta hs (err idx) idx r st).fail = st.fail + 1 ∧
    (processRow tmpl meta hs (err idx) idx r st).success = st.success := by
  have hp : processRow tmpl meta hs (err idx) idx r st
      = { st with fail := st.fail + 1 } := by
    unfold processRow
    rw [if_neg (by simp [hv])]
  refine ⟨?_, by rw [hp], by rw [hp], by rw [hp]⟩
  rw [runAux, hp]

/-- Witness for claim C5 at a concrete whitespace-only name row. -/
theorem invalid_name_row_skipped_wit :
    validName (some "   ") = false ∧
    runAux wTemplate "meta" true (fun _ => none) 0 [⟨some "   ", some "X"⟩] initBatch
      = runAux wTemplate "meta" true (fun _ => none) 1 []
          { initBatch with fail := initBatch.fail + 1 } :=
  ⟨by decide,
   (invalid_name_row_skipped wTemplate "meta" true (fun _ => none) 0
     ⟨some "   ", some "X"⟩ [] initBatch (by decide)).1⟩

/-! ## Claim C6: per-row exceptions are contained -/

/-- Claim C6: an exception raised while rendering, merging, serializing
or archiving a row is caught at the row level: the failure counter goes
up by exactly one, a warning containing the student name and the 1-based
row number is recorded, and the loop continues with the remaining rows,
so the batch always runs to completion. -/
theorem row_exception_contained (tmpl : Template) (meta : String) (hs : Bool)
    (err : Nat → Option (Bool × String)) (idx : Nat) (r : RowV)
    (rest : List RowV) (st : BatchState) (afterLoad : Bool) (e : String)
    (hv : validName r.name = true) (he : err idx = some (afterLoad, e)) :
    runAux tmpl meta hs err idx (r :: rest) st
      = runAux tmpl meta hs err (idx + 1) rest
          { st with fail := st.fail + 1,
                    messages := st.messages ++ [errMsg idx (trimCell r.name) e],
                    loads := st.loads + (if afterLoad then 1 else 0) } ∧
    (trimCell r.name).data <:+: (errMsg idx (trimCell r.name) e).data ∧
    (pyNatRepr (idx + 1)).data <:+: (errMsg idx (trimCell r.name) e).data := by
  have hst : trimCell r.name ≠ "" := by
    unfold validName at hv
    exact of_decide_eq_true hv
  have hmsg : errMsg idx (trimCell r.name) e
      = "Error creating certificate for " ++ trimCell r.name ++ " (Row " ++
          pyNatRepr (idx + 1) ++ "): " ++ e := by
    unfold errMsg
    rw [if_neg hst]
  refine ⟨?_, ?_, ?_⟩
  · have hp : processRow tmpl meta hs (err idx) idx r st
        = { st with fail := st.fail + 1,
                    messages := st.messages ++ [errMsg idx (trimCell r.name) e],
                    loads := st.loads + (if afterLoad then 1 else 0) } := by
      unfold processRow
      rw [he, if_pos hv]
    rw [runAux, hp]
  · rw [hmsg]
    refine ⟨"Error creating certificate for ".data,
      (" (Row " ++ pyNatRepr (idx + 1) ++ "): " ++ e).data, ?_⟩
    simp [String.data_append, List.append_assoc]
  · rw [hmsg]
    refine ⟨("Error creating certificate for " ++ trimCell r.name ++ " (Row ").data,
      ("): " ++ e).data, ?_⟩
    simp [String.data_append, List.append_assoc]

/-- Witness for claim C6 at a concrete failing row. -/
theorem row_exception_contained_wit :
    validName (some "Alice") = true ∧
    ("Alice" : String).data <:+: (errMsg 0 "Alice" "boom").data := by
  have htc : trimCell (some "Alice") = "Alice" := by decide
  refine ⟨by decide, ?_⟩
  have h := (row_exception_contained wTemplate "m" false
    (fun _ => some (true, "boom")) 0 ⟨some "Alice", none⟩ [] initBatch
    true "boom" (by decide) rfl).2.1
  rwa [htc] at h

/-! ## Claim C7: archive entry names -/

/-- Claim C7, counterexample: for the name `"A\tB"` (an internal tab,
which is whitespace) the produced entry name keeps the tab, while the
claim (all whitespace replaced by underscores) predicts
`"001_A_B_certificate.pdf"`. -/
theorem entry_name_whitespace_cex :
    (runBatch wTemplate "m" false (fun _ => none)
      [⟨some "A\tB", none⟩]).entries.map Prod.fst
      = ["001_A\tB_certificate.pdf"] ∧
    ("001_A\tB_certificate.pdf" : String) ≠ "001_A_B_certificate.pdf" := by decide

/-- Claim C7, amended: the archive entry name is the zero-padded 3-digit
1-based row index, an underscore, the trimmed name with every *space*
(not every whitespace character) replaced by an underscore and every
character of the special set replaced by `_`, the fixed suffix
`"_certificate"`, and the fixed extension `".pdf"`; entry names are
unique across a batch even for identical names. -/
theorem entry_name_formula_and_unique (tmpl : Template) (meta : String)
    (hs : Bool) (err : Nat → Option (Bool × String)) (rows : List RowV)
    (idx : Nat) (s : String) :
    entryName idx s = specEntryName idx s ∧
    ((runBatch tmpl meta hs err rows).entries.map Prod.fst).Nodup := by
  refine ⟨entryName_eq_spec idx s, ?_⟩
  unfold runBatch
  apply nodup_runAux
  refine ⟨fun nm hm => ?_, by simp [initBatch]⟩
  simp [initBatch] at hm

/-! ## Claim C8: optional affiliation -/

/-- Claim C8: a valid-name row whose affiliation cell is missing or
empty after trimming renders with the empty affiliation string, counts
as a success (not a failure), and its overlay contains only the name
draw — no affiliation text draw; the name draw heads the overlay of
every rendered row. -/
theorem empty_affiliation_omitted (tmpl : Template) (meta : String)
    (idx : Nat) (r : RowV) (st : BatchState) (hv : validName r.name = true)
    (hsch : r.school = none ∨ ∃ sc, r.school = some sc ∧ pyStrip sc = "") :
    processRow tmpl meta true none idx r st
      = { st with success := st.success + 1,
                  entries := st.entries ++
                    [(entryName idx (trimCell r.name),
                      serializePdf (renderRow tmpl (trimCell r.name) "") meta)],
                  loads := st.loads + 1 } ∧
    mkOverlay (trimCell r.name) "" = [studentDraw (trimCell r.name)] ∧
    (∀ nm sc : String, (mkOverlay nm sc).head? = some (studentDraw nm)) := by
  have hso : schoolOf true r = "" := by
    unfold schoolOf
    rcases hsch with h | ⟨sc, hsc, hstrip⟩
    · simp [h]
    · simp [hsc, hstrip]
  refine ⟨?_, by simp [mkOverlay], fun nm sc => by simp [mkOverlay]⟩
  unfold processRow
  rw [if_pos hv]
  rw [hso]

/-- Witness for claim C8 at a concrete row with a blank affiliation. -/
theorem empty_affiliation_omitted_wit :
    validName (some "Bob") = true ∧
    processRow wTemplate "m" true none 0 ⟨some "Bob", some "  "⟩ initBatch
      = { initBatch with
          success := initBatch.success + 1,
          entries := initBatch.entries ++
            [(entryName 0 (trimCell (some "Bob")),
              serializePdf (renderRow wTemplate (trimCell (some "Bob")) "") "m")],
          loads := initBatch.loads + 1 } :=
  ⟨by decide,
   (empty_affiliation_omitted wTemplate "m" 0 ⟨some "Bob", some "  "⟩ initBatch
     (by decide) (Or.inr ⟨"  ", rfl, by decide⟩)).1⟩

/-! ## Claim C9: determinism modulo container metadata -/

/-- Claim C9: a batch run is deterministic per input: two runs on the
same dataset, template, style and failure behavior produce the same
success and failure counts, the same entry names, the same visible page
content (text, positions, fonts, colors) and the same messages, whatever
container metadata (timestamps, producer fields) the two writer
environments contribute. -/
theorem batch_deterministic_mod_metadata (tmpl : Template) (hs : Bool)
    (err : Nat → Option (Bool × String)) (rows : List RowV)
    (meta₁ meta₂ : String) :
    visible (runBatch tmpl meta₁ hs err rows)
      = visible (runBatch tmpl meta₂ hs err rows) := by
  unfold runBatch
  exact visible_runAux tmpl meta₁ meta₂ hs err rows 0 initBatch initBatch rfl

/-! ## Claim C1: insert failure and certificate generation -/

/-- Claim C1, counterexample: with valid form inputs, a failed insert
(here a raised network exception) leaves `details_submitted = False`, so
the generation section — gated on that flag — is unreachable, while a
successful insert opens it: the insert failure *does* block certificate
generation in this code. -/
theorem insert_failure_blocks_generation_cex :
    inputsValid wInputs = true ∧
    canGenerate (submitHandler initSession wInputs "t0"
      (InsertResult.exn "network unreachable")).1 = false ∧
    canGenerate (submitHandler initSession wInputs "t0" InsertResult.ok).1
      = true := by decide

/-- Claim C1, amended: when the five form fields are all non-empty after
trimming and the remote insert fails (exception, error response, or
empty response data), the failure is reported to the user, but
`details_submitted` is set to False, so the certificate-generation step
is not reachable until a later successful insert; a successful insert
sets the flag and opens generation. -/
theorem insert_failure_blocks_generation (s : Session) (i : FormInputs)
    (now : String) (r : InsertResult) (hv : inputsValid i = true)
    (hr : r ≠ InsertResult.ok) :
    (submitHandler s i now r).1.details_submitted = false ∧
    canGenerate (submitHandler s i now r).1 = false ∧
    (submitHandler s i now r).2 ≠ [] ∧
    (submitHandler s i now InsertResult.ok).1.details_submitted = true ∧
    canGenerate (submitHandler s i now InsertResult.ok).1 = true := by
  have hf : (submitHandler s i now r).1.details_submitted = false :=
    submit_fail_flag s i now r (Or.inr hr)
  have hok : (submitHandler s i now InsertResult.ok).1.details_submitted = true := by
    unfold submitHandler
    rw [if_pos hv]
  have hmsg : (submitHandler s i now r).2 ≠ [] := by
    unfold submitHandler
    rw [if_pos hv]
    cases r with
    | ok => exact absurd rfl hr
    | errorResp m => simp
    | emptyResp => simp
    | exn m => simp
  exact ⟨hf, hf, hmsg, hok, hok⟩

/-- Witness for the amended claim C1 at concrete valid inputs and an
empty-response insert failure. -/
theorem insert_failure_blocks_generation_wit :
    (submitHandler initSession wInputs "2024-06-01T00:00:00+00:00"
       InsertResult.emptyResp).1.details_submitted = false ∧
    canGenerate (submitHandler initSession wInputs "2024-06-01T00:00:00+00:00"
       InsertResult.emptyResp).1 = false ∧
    (submitHandler initSession wInputs "2024-06-01T00:00:00+00:00"
       InsertResult.emptyResp).2 ≠ [] ∧
    (submitHandler initSession wInputs "2024-06-01T00:00:00+00:00"
       InsertResult.ok).1.details_submitted = true ∧
    canGenerate (submitHandler initSession wInputs "2024-06-01T00:00:00+00:00"
       InsertResult.ok).1 = true :=
  insert_failure_blocks_generation initSession wInputs
    "2024-06-01T00:00:00+00:00" InsertResult.emptyResp (by decide) (by decide)

/-! ## Claim C10: session-state invariant -/

/-- Claim C10: in every reachable session state, whenever
`details_submitted` is True the stored `user_data` holds the five
submitter fields non-empty after trimming plus the submission-time clock
value as timestamp, and the state was produced by a submit whose remote
insert returned non-empty response data; every failure path (invalid
inputs, insert exception, error response, empty response) sets the flag
to False; and the generation gate is exactly the flag. -/
theorem session_state_invariant (s : Session) (hr : Reachable s) :
    (s.details_submitted = true →
      ∃ ud s₀ i now, s.user_data = some ud ∧
        pyStrip ud.name ≠ "" ∧ pyStrip ud.school_name ≠ "" ∧
        pyStrip ud.school_number ≠ "" ∧ pyStrip ud.contact_number ≠ "" ∧
        pyStrip ud.ic_number ≠ "" ∧ ud.timestamp = now ∧
        Reachable s₀ ∧ inputsValid i = true ∧
        s = (submitHandler s₀ i now InsertResult.ok).1) ∧
    (∀ (i : FormInputs) (now : String) (r : InsertResult),
      inputsValid i = false ∨ r ≠ InsertResult.ok →
      (submitHandler s i now r).1.details_submitted = false) ∧
    canGenerate s = s.details_submitted := by
  refine ⟨?_, fun i now r h => submit_fail_flag s i now r h, rfl⟩
  induction hr with
  | init =>
    intro h
    simp [initSession] at h
  | step s0 i now r hr0 ih =>
    intro h
    by_cases hv : inputsValid i = true
    · cases r with
      | ok =>
        have hfields := inputsValid_fields i hv
        refine ⟨mkUserData i now, s0, i, now, ?_, ?_, ?_, ?_, ?_, ?_, rfl,
          hr0, hv, rfl⟩
        · unfold submitHandler
          rw [if_pos hv]
        · simpa [mkUserData, pyStrip_idem] using hfields.1
        · simpa [mkUserData, pyStrip_idem] using hfields.2.1
        · simpa [mkUserData, pyStrip_idem] using hfields.2.2.1
        · simpa [mkUserData, pyStrip_idem] using hfields.2.2.2.1
        · simpa [mkUserData, pyStrip_idem] using hfields.2.2.2.2
      | errorResp m =>
        exfalso
        revert h
        unfold submitHandler
        rw [if_pos hv]
        simp
      | emptyResp =>
        exfalso
        revert h
        unfold submitHandler
        rw [if_pos hv]
        simp
      | exn m =>
        exfalso
        revert h
        unfold submitHandler
        rw [if_pos hv]
        simp
    · exfalso
      revert h
      unfold submitHandler
      rw [if_neg hv]
      simp

/-- Witness for claim C10 at the concrete reachable state produced by a
successful submit from the initial state. -/
theorem session_state_invariant_wit :
    ∃ ud s₀ i now,
      (submitHandler initSession wInputs "2024-06-01T00:00:00+00:00"
        InsertResult.ok).1.user_data = some ud ∧
      pyStrip ud.name ≠ "" ∧ pyStrip ud.school_name ≠ "" ∧
      pyStrip ud.school_number ≠ "" ∧ pyStrip ud.contact_number ≠ "" ∧
      pyStrip ud.ic_number ≠ "" ∧ ud.timestamp = now ∧
      Reachable s₀ ∧ inputsValid i = true ∧
      (submitHandler initSession wInputs "2024-06-01T00:00:00+00:00"
        InsertResult.ok).1 = (submitHandler s₀ i now InsertResult.ok).1 :=
  (session_state_invariant
    (submitHandler initSession wInputs "2024-06-01T00:00:00+00:00"
      InsertResult.ok).1
    (Reachable.step initSession wInputs "2024-06-01T00:00:00+00:00"
      InsertResult.ok Reachable.init)).1 (by decide)

end CertApp
